import Mathlib

/-!
Verification of `package_llvm.py`: a shallow embedding of the script's
version type, dependency auditor, retry wrapper and release publisher,
together with proofs of the specification's claims about them.

Python strings are modelled as Lean `String` / `List Char`; Python `int`
values as `Int`; machine-level concerns do not arise.  Fallible Python code
(`sys.exit`, raised exceptions) is modelled with `Except String`.
-/

namespace PackageLlvm

/-! ## Python string primitives used by the script -/

/-- Python `str.split( sep )` for a single-character separator, on the
character list of the string.  `"".split( "." ) = [ "" ]`,
`"a..b".split( "." ) = [ "a", "", "b" ]`. -/
def splitCharAux (sep : Char) : List Char → List Char → List String
  | [], acc => [String.mk acc.reverse]
  | c :: rest, acc =>
    if c = sep then String.mk acc.reverse :: splitCharAux sep rest []
    else splitCharAux sep rest (c :: acc)

/-- Python `str.split( sep )` for a single-character separator. -/
def splitChar (sep : Char) (s : String) : List String :=
  splitCharAux sep s.data []

/-- Value of a nonempty list of decimal digits. -/
def digitsToNat : List Char → Nat
  | [] => 0
  | c :: rest => List.foldl (fun acc d => acc * 10 + (d.toNat - 48)) (c.toNat - 48) rest

/-- Python `int( s )` on the forms the script feeds it: an optional minus
sign followed by decimal digits.  (CPython also strips whitespace and
accepts a plus sign and digit-group underscores; no input in this script
uses those forms, so they are not modelled.)  Returns `none` where Python
raises `ValueError`. -/
def pyInt (s : String) : Option Int :=
  match s.data with
  | '-' :: rest =>
    if rest ≠ [] ∧ rest.all Char.isDigit then some (-(digitsToNat rest : Int)) else none
  | cs =>
    if cs ≠ [] ∧ cs.all Char.isDigit then some ((digitsToNat cs : Int)) else none

/-- Python `str( n )` for an `int`. -/
def pyStr (n : Int) : String := toString n

/-- Python `os.path.basename`: the part of the path after the last slash. -/
def pyBasename (p : String) : String :=
  (splitChar '/' p).getLastD p

/-! ## The `Version` class (lines 39-66 of `package_llvm.py`) -/

/-- The state of a constructed `Version` object: fields `major`, `minor`,
`patch` as assigned by `Version.__init__`. -/
structure Version where
  major : Int
  minor : Int
  patch : Int
deriving DecidableEq, Repr

/-- `Version.__init__( self, version )` (lines 42-46): split the string on
dots; `major` is `int` of component 0, `minor` / `patch` are `int` of
components 1 / 2 when present, else 0.  Components past the third are never
read.  `none` models the `ValueError` that `int()` raises on a malformed
component. -/
def Version.parse (version : String) : Option Version := do
  let split_version := splitChar '.' version
  let major ← (split_version.get? 0).bind pyInt
  let minor ← if split_version.length > 1 then (split_version.get? 1).bind pyInt else some 0
  let patch ← if split_version.length > 2 then (split_version.get? 2).bind pyInt else some 0
  some ⟨major, minor, patch⟩

/-- `Version.__repr__` (lines 63-66): `'.'.join( str major, str minor,
str patch )`. -/
def Version.repr (v : Version) : String :=
  pyStr v.major ++ "." ++ pyStr v.minor ++ "." ++ pyStr v.patch

/-- A Python value handed to `Version.__eq__` / `__lt__`: either a `Version`
object or some non-`Version` object (summarised by a description string). -/
inductive PyObj where
  | version (v : Version)
  | other (descr : String)

/-- The message of the `ValueError` raised by `Version.__eq__` / `__lt__` on
a non-`Version` operand (lines 51 and 58). -/
def versionCompareError : String := "Must be compared with a Version object."

/-- `Version.__eq__` (lines 49-53): tuple equality on
(major, minor, patch); raises on a non-`Version` operand. -/
def Version.eqPy (self : Version) : PyObj → Except String Bool
  | PyObj.version o =>
    Except.ok (self.major == o.major && self.minor == o.minor && self.patch == o.patch)
  | PyObj.other _ => Except.error versionCompareError

/-- Python lexicographic `<` on the 3-tuples built by `__lt__`. -/
def tripleLt (x y : Version) : Bool :=
  x.major < y.major ||
    (x.major == y.major &&
      (x.minor < y.minor || (x.minor == y.minor && x.patch < y.patch)))

/-- `Version.__lt__` (lines 56-60): tuple `<` on (major, minor, patch);
raises on a non-`Version` operand. -/
def Version.ltPy (self : Version) : PyObj → Except String Bool
  | PyObj.version o => Except.ok (tripleLt self o)
  | PyObj.other _ => Except.error versionCompareError

/-! ## The dependency auditor (`CheckDependencies`, lines 134-152)

The two patterns `OBJDUMP_NEEDED_REGEX` and `OBJDUMP_VERSION_REGEX` are
anchored with `^...$` and applied per line of `objdump` output (lines carry
no newline, having come from `splitlines()`), so `search` behaves as a full
match of the line.  They are embedded as deterministic parsers.  This is
equivalent to the backtracking regex semantics: after each greedy class
(`[0-9a-f]+`, `\d+`) the pattern requires a space, which no character of
the class can be, so every successful regex match consumes the maximal run
there; and `(?P<library>.*)_(?P<version>.*)$` with a greedy `.*` splits the
remainder at its last underscore. -/

/-- Drop a literal character-list prefix, or fail. -/
def dropPre : List Char → List Char → Option (List Char)
  | [], cs => some cs
  | _ :: _, [] => none
  | p :: ps, c :: cs => if c = p then dropPre ps cs else none

/-- `OBJDUMP_NEEDED_REGEX` (lines 33-34):
`^  NEEDED               (?P<dependency>.*)$` — two spaces, `NEEDED`,
fifteen spaces, then the captured dependency (the whole rest of the
line). -/
def matchNeeded (line : String) : Option String :=
  (dropPre "  NEEDED               ".data line.data).map String.mk

/-- Split a character list at its last underscore: the capture of
`(?P<library>.*)_(?P<version>.*)$` with a greedy first group. -/
def splitLastUnderscore (cs : List Char) : Option (String × String) :=
  match (cs.reverse.span (fun c => c != '_')) with
  | (_, []) => none
  | (revVer, _ :: revLib) => some (String.mk revLib.reverse, String.mk revVer.reverse)

/-- `OBJDUMP_VERSION_REGEX` (lines 35-36):
`^    0x[0-9a-f]+ 0x00 \d+ (?P<library>.*)_(?P<version>.*)$`.
Returns the (library, version) captures. -/
def matchVersionLine (line : String) : Option (String × String) := do
  let cs ← dropPre "    0x".data line.data
  let (hex, cs) := cs.span (fun c => c.isDigit || ('a' ≤ c && c ≤ 'f'))
  if hex = [] then none else do
  let cs ← dropPre " 0x00 ".data cs
  let (ds, cs) := cs.span Char.isDigit
  if ds = [] then none else do
  let cs ← dropPre " ".data cs
  splitLastUnderscore cs

/-- The audit data built by `CheckDependencies`: the `dependencies` list and
the `versions` mapping (a `collections.defaultdict( list )`, so every
library name defaults to the empty list). -/
structure AuditState where
  dependencies : List String
  versions : String → List Version

/-- The empty audit state: `dependencies = []`,
`versions = defaultdict( list )`. -/
def AuditState.init : AuditState := ⟨[], fun _ => []⟩

/-- The body of the `for line in output.splitlines()` loop of
`CheckDependencies` (lines 139-148): every line is tested against both
patterns; a NEEDED match appends to `dependencies`, a version match appends
`Version( version )` to `versions[ library ]`.  A malformed version
capture makes `Version.__init__` raise `ValueError`, aborting the audit. -/
def scanLine (st : AuditState) (line : String) : Except String AuditState :=
  let st :=
    match matchNeeded line with
    | some dep => { st with dependencies := st.dependencies ++ [dep] }
    | none => st
  match matchVersionLine line with
  | none => Except.ok st
  | some (library, verStr) =>
    match Version.parse verStr with
    | none => Except.error "ValueError: invalid literal for int()"
    | some version =>
      Except.ok { st with
        versions := fun l => if l = library then st.versions l ++ [version] else st.versions l }

/-- The whole scan loop of `CheckDependencies` over the `objdump` output
lines. -/
def scanLines (st : AuditState) : List String → Except String AuditState
  | [] => Except.ok st
  | line :: rest => do
    let st ← scanLine st line
    scanLines st rest

/-! ## The `Retries` wrapper (lines 70-84)

`Retries( function, *args )` repeatedly calls `function( *args )`, catching
the `SystemExit` raised by `sys.exit`.  The wrapped operation is modelled
as `op : Nat → Option String`: `op i = none` means the (0-based) `i`-th
invocation returns normally, `op i = some err` means it raises
`SystemExit( err )`.  The result is the returned/raised value, the list of
log lines printed, and the total number of invocations of `function`. -/

/-- The log line printed on each caught failure (line 78):
`'ERROR: {0} Retry {1}. '` formatted with the error and the retry count
(note the trailing space). -/
def retryLogLine (err : String) (nb : Nat) : String :=
  "ERROR: " ++ err ++ " Retry " ++ toString nb ++ ". "

/-- The abort message of lines 80-81.  It names the retry bound only; the
underlying error is not interpolated into it. -/
def retriesExceededMsg (max_retries : Nat) : String :=
  "Number of retries exceeded (" ++ toString max_retries ++ "). Aborting."

/-- The `while True` loop of `Retries`, with `fuel` a structural bound on
the remaining iterations.  `Retries` enters the loop with
`fuel = max_retries`, which maintains `fuel = max_retries - nb_retries`,
so the `nb > max_retries` exit always fires before the fuel runs out and
the fuel-exhaustion branch (which returns the same abort) is never
reached. -/
def RetriesLoop (op : Nat → Option String) (max_retries : Nat) :
    Nat → Nat → Nat → List String → Except String Bool × List String × Nat
  | fuel, i, nb_retries, log =>
    match op i with
    | none => (Except.ok true, log, i + 1)
    | some err =>
      let nb := nb_retries + 1
      let log := log ++ [retryLogLine err nb]
      if nb > max_retries then
        (Except.error (retriesExceededMsg max_retries), log, i + 1)
      else
        match fuel with
        | 0 => (Except.error (retriesExceededMsg max_retries), log, i + 1)
        | fuel + 1 => RetriesLoop op max_retries fuel (i + 1) nb log

/-- `Retries` (lines 70-84): `max_retries = 3`, `nb_retries` starts at 0,
and the loop body calls `function`, counts and logs each `SystemExit`,
aborts once `nb_retries > max_retries`, and returns `True` on the first
normal return. -/
def Retries (op : Nat → Option String) : Except String Bool × List String × Nat :=
  RetriesLoop op 3 3 0 0 []

/-! Substring test used to state that a message does or does not contain an
error text. -/

/-- Whether `needle` is a leading segment of `hay`. -/
def isPrefList : List Char → List Char → Bool
  | [], _ => true
  | _ :: _, [] => false
  | a :: as, b :: bs => a == b && isPrefList as bs

/-- Whether `needle` occurs contiguously anywhere in the second list. -/
def hasSubstr (needle : List Char) : List Char → Bool
  | [] => isPrefList needle []
  | hay@(_ :: rest) => isPrefList needle hay || hasSubstr needle rest

/-! ## The release publisher (`UploadLlvm`, lines 197-272)

The GitHub remote is modelled as a `GitHubState`: a list of releases, each
carrying the fields the script reads, plus counters supplying fresh asset
ids and fresh upload endpoints.  GitHub's `upload_url` strings (an endpoint
path followed by the literal URI template `\x7b?name,label\x7d`) are
modelled as an endpoint identifier plus a flag recording whether the
template suffix is still present; the script's
`upload_url.replace( '\x7b?name,label\x7d', '' )` clears the flag.  HTTP
status codes are injected through a `Remote` record so that failing calls
(`sys.exit` paths) can be exercised; the all-success remote is
`Remote.ok`. -/

/-- The `argparse` fields of interest: the positional `version` and the
optional `--release-candidate` integer. -/
structure Args where
  version : String
  release_candidate : Option Int
deriving Repr

/-- Python truthiness of `args.release_candidate`: `None` and `0` are
falsy, every other integer truthy. -/
def rcTruthy (rc : Option Int) : Bool :=
  match rc with
  | none => false
  | some n => n != 0

/-- `GetBundleVersion` (lines 98-101): appends `-rc<N>` when
`args.release_candidate` is truthy (so not for `None`, and not for `0`
either). -/
def GetBundleVersion (args : Args) : String :=
  match args.release_candidate with
  | some rc => if rc != 0 then args.version ++ "-rc" ++ pyStr rc else args.version
  | none => args.version

/-- A release asset: its display name and its numeric id. -/
structure Asset where
  name : String
  id : Nat
deriving DecidableEq, Repr

/-- A release: the fields of the GitHub release object the script reads or
writes.  `upload_endpoint` identifies the release's upload URL path. -/
structure Release where
  tag_name : String
  name : String
  body : String
  prerelease : Bool
  upload_endpoint : Nat
  assets : List Asset
deriving DecidableEq, Repr

/-- The remote store: the releases plus counters from which the remote
mints fresh asset ids and fresh upload endpoints. -/
structure GitHubState where
  releases : List Release
  nextAssetId : Nat
  nextEndpoint : Nat
deriving DecidableEq, Repr

/-- An `upload_url` value as the script sees it: the endpoint and whether
the `\x7b?name,label\x7d` template suffix is still attached. -/
structure UploadUrl where
  endpoint : Nat
  templated : Bool
deriving DecidableEq, Repr

/-- The HTTP requests `UploadLlvm` issues, in order. -/
inductive ApiOp where
  | listReleases
  | deleteAsset (asset_id : Nat)
  | createRelease (tag_name name body : String) (prerelease : Bool)
  | uploadAsset (endpoint : Nat) (templated : Bool) (name : String)
deriving DecidableEq, Repr

/-- Injected HTTP status codes for the four kinds of request, plus the
`message` field of the error body returned on failure. -/
structure Remote where
  getStatus : Nat
  deleteStatus : Nat
  createStatus : Nat
  uploadStatus : Nat
  errMessage : String

/-- The remote on which every request succeeds. -/
def Remote.ok : Remote := ⟨200, 204, 201, 201, ""⟩

/-- Remove from one release every asset with the given id. -/
def stripAsset (aid : Nat) (r : Release) : Release :=
  { r with assets := r.assets.filter (fun a => a.id ≠ aid) }

/-- `DELETE /repos/../releases/assets/<id>`: the remote removes the asset
with that id wherever it is held. -/
def deleteAssetById (aid : Nat) (s : GitHubState) : GitHubState :=
  { s with releases := s.releases.map (stripAsset aid) }

/-- Append an asset to the first release satisfying `p`. -/
def addToFirst (p : Release → Bool) (a : Asset) : List Release → List Release
  | [] => []
  | r :: rest =>
    if p r then { r with assets := r.assets ++ [a] } :: rest
    else r :: addToFirst p a rest

/-- `POST` of the artifact bytes to an upload URL: the remote resolves the
endpoint to its release and attaches a fresh-id asset with the given name.
A URL still carrying the URI template resolves to no release. -/
def addAsset (u : UploadUrl) (n : String) (s : GitHubState) : GitHubState :=
  if u.templated then s
  else
    { s with
      releases := addToFirst (fun r => r.upload_endpoint == u.endpoint) ⟨n, s.nextAssetId⟩ s.releases,
      nextAssetId := s.nextAssetId + 1 }

/-- `prerelease = args.release_candidate is not None` (line 238). -/
def ReleasePrerelease (args : Args) : Bool :=
  args.release_candidate.isSome

/-- The release display name of lines 239-241:
`'LLVM and Clang ' + args.version`, with `' RC' + str( N )` appended only
when `args.release_candidate` is truthy (hence not when it is 0). -/
def ReleaseName (args : Args) : String :=
  let name := "LLVM and Clang " ++ args.version
  match args.release_candidate with
  | some rc => if rc != 0 then name ++ " RC" ++ pyStr rc else name
  | none => name

/-- The release body of line 247. -/
def ReleaseBody (args : Args) : String :=
  ReleaseName args ++ " without realtime, terminfo, and zlib dependencies."

/-- The `for release in response.json()` loop of lines 210-234, iterating
over the snapshot returned by the initial GET while the deletes act on the
live store.  For each release whose `tag_name` equals the bundle version,
`upload_url` is taken from it, and the inner asset loop deletes the first
asset named `bundle_name` (the `break` on line 234 stops after one),
exiting on a non-204 response with the line-232 message. -/
def ReconcileLoop (remote : Remote) (bundle_version bundle_name : String) :
    List Release → Option UploadUrl → GitHubState → List ApiOp →
    Except String (Option UploadUrl × GitHubState) × List ApiOp
  | [], uurl, s, ops => (Except.ok (uurl, s), ops)
  | release :: rest, uurl, s, ops =>
    if release.tag_name ≠ bundle_version then
      ReconcileLoop remote bundle_version bundle_name rest uurl s ops
    else
      let uurl := some (⟨release.upload_endpoint, true⟩ : UploadUrl)
      match release.assets.find? (fun a => a.name == bundle_name) with
      | none => ReconcileLoop remote bundle_version bundle_name rest uurl s ops
      | some asset =>
        let ops := ops ++ [ApiOp.deleteAsset asset.id]
        if remote.deleteStatus ≠ 204 then
          (Except.error ("Creating release failed with message: " ++ remote.errMessage), ops)
        else
          ReconcileLoop remote bundle_version bundle_name rest uurl
            (deleteAssetById asset.id s) ops

/-- The `if not upload_url` block of lines 236-256: POST a new release with
tag `bundle_version`, the computed name/body/prerelease, exiting on a
non-201 response; on success the new release (with no assets) is appended
to the store and its templated upload URL is returned. -/
def CreateRelease (remote : Remote) (args : Args) (bundle_version : String)
    (s : GitHubState) (ops : List ApiOp) :
    Except String (UploadUrl × GitHubState) × List ApiOp :=
  let name := ReleaseName args
  let body := ReleaseBody args
  let prerelease := ReleasePrerelease args
  let ops := ops ++ [ApiOp.createRelease bundle_version name body prerelease]
  if remote.createStatus ≠ 201 then
    (Except.error ("Releasing failed with message: " ++ remote.errMessage), ops)
  else
    (Except.ok (⟨s.nextEndpoint, true⟩,
      { s with
        releases := s.releases ++
          [⟨bundle_version, name, body, prerelease, s.nextEndpoint, []⟩],
        nextEndpoint := s.nextEndpoint + 1 }), ops)

/-- `UploadLlvm( args, bundle_path )` (lines 197-272): GET the releases
(exit on non-200), locate/reconcile the release tagged with the bundle
version, create it if absent, strip the URI template from the upload URL,
and POST the artifact (exit on non-201).  Returns the final store (or the
`sys.exit` message) together with the full request trace. -/
def UploadLlvm (remote : Remote) (args : Args) (bundle_path : String)
    (s : GitHubState) : Except String GitHubState × List ApiOp :=
  let ops := [ApiOp.listReleases]
  if remote.getStatus ≠ 200 then
    (Except.error ("Getting releases failed with message: " ++ remote.errMessage), ops)
  else
    let bundle_version := GetBundleVersion args
    let bundle_name := pyBasename bundle_path
    match ReconcileLoop remote bundle_version bundle_name s.releases none s ops with
    | (Except.error e, ops) => (Except.error e, ops)
    | (Except.ok (uurl, s), ops) =>
      match (match uurl with
             | some u => (Except.ok (u, s), ops)
             | none => CreateRelease remote args bundle_version s ops) with
      | (Except.error e, ops) => (Except.error e, ops)
      | (Except.ok (u, s), ops) =>
        let u := { u with templated := false }
        let ops := ops ++ [ApiOp.uploadAsset u.endpoint u.templated bundle_name]
        if remote.uploadStatus ≠ 201 then
          (Except.error ("Uploading failed with message: " ++ remote.errMessage), ops)
        else
          (Except.ok (addAsset u bundle_name s), ops)

/-- The publish step of `Main` (line 328): `UploadLlvm( args, bundle_path )`
invoked directly — the `Retries` helper does not wrap it. -/
def MainPublish (remote : Remote) (args : Args) (bundle_path : String)
    (s : GitHubState) : Except String GitHubState × List ApiOp :=
  UploadLlvm remote args bundle_path s

/-! ### Observation helpers on the publish model -/

/-- The number of assets named `n` across all releases tagged `v`. -/
def countAssetsNamed (v n : String) (s : GitHubState) : Nat :=
  ((s.releases.filter (fun r => r.tag_name == v)).map
    (fun r => (r.assets.filter (fun a => a.name == n)).length)).sum

/-- The number of releases tagged `v`. -/
def countReleasesTagged (v : String) (s : GitHubState) : Nat :=
  (s.releases.filter (fun r => r.tag_name == v)).length

/-- How many operations of a trace are asset deletions. -/
def countDeletes (ops : List ApiOp) : Nat :=
  (ops.filter (fun o => match o with | ApiOp.deleteAsset _ => true | _ => false)).length

/-- How many operations of a trace are asset uploads. -/
def countUploads (ops : List ApiOp) : Nat :=
  (ops.filter (fun o => match o with | ApiOp.uploadAsset _ _ _ => true | _ => false)).length

/-- How many operations of a trace are release listings (the Locate GET). -/
def countLocates (ops : List ApiOp) : Nat :=
  (ops.filter (fun o => match o with | ApiOp.listReleases => true | _ => false)).length

/-! ## Lemmas about the version order -/

/-- `tripleLt` is the lexicographic strict order on (major, minor, patch). -/
theorem tripleLt_iff (x y : Version) :
    tripleLt x y = true ↔
      (x.major < y.major ∨
        (x.major = y.major ∧
          (x.minor < y.minor ∨ (x.minor = y.minor ∧ x.patch < y.patch)))) := by
  simp [tripleLt, Bool.or_eq_true, Bool.and_eq_true, decide_eq_true_eq, beq_iff_eq]

/-! ## Claims C7, C8, C10: the `Version` value type -/

/-- C7: for every valid dotted version string with 1, 2 or 3 numeric
components, parsing succeeds and formatting the result yields the canonical
3-component dotted string: the rendered components are exactly the parsed
ones, with minor and patch rendered as 0 when absent from the input. -/
theorem version_parse_then_format_canonical (s : String) (l : List String)
    (hl : splitChar '.' s = l) (h1 : 0 < l.length) (h3 : l.length ≤ 3)
    (hnum : ∀ p ∈ l, (pyInt p).isSome = true) :
    ∃ v : Version, Version.parse s = some v ∧
      Version.repr v = pyStr v.major ++ "." ++ pyStr v.minor ++ "." ++ pyStr v.patch ∧
      pyInt (l.headD "") = some v.major ∧
      (∀ m, l.get? 1 = some m → pyInt m = some v.minor) ∧
      (∀ m, l.get? 2 = some m → pyInt m = some v.patch) ∧
      (l.length = 1 → v.minor = 0 ∧ v.patch = 0) ∧
      (l.length = 2 → v.patch = 0) := by
  match l with
  | [] => simp at h1
  | [a] =>
    obtain ⟨x, hx⟩ := Option.isSome_iff_exists.mp (hnum a (by simp))
    refine ⟨⟨x, 0, 0⟩, ?_, rfl, ?_, ?_, ?_, ?_, ?_⟩ <;>
      simp [Version.parse, hl, hx]
  | [a, b] =>
    obtain ⟨x, hx⟩ := Option.isSome_iff_exists.mp (hnum a (by simp))
    obtain ⟨y, hy⟩ := Option.isSome_iff_exists.mp (hnum b (by simp))
    refine ⟨⟨x, y, 0⟩, ?_, rfl, ?_, ?_, ?_, ?_, ?_⟩ <;>
      simp [Version.parse, hl, hx, hy]
  | [a, b, c] =>
    obtain ⟨x, hx⟩ := Option.isSome_iff_exists.mp (hnum a (by simp))
    obtain ⟨y, hy⟩ := Option.isSome_iff_exists.mp (hnum b (by simp))
    obtain ⟨z, hz⟩ := Option.isSome_iff_exists.mp (hnum c (by simp))
    refine ⟨⟨x, y, z⟩, ?_, rfl, ?_, ?_, ?_, ?_, ?_⟩ <;>
      simp [Version.parse, hl, hx, hy, hz]
  | a :: b :: c :: d :: t => simp at h3

/-- Witness for C7 at the spec's example input "18.1". -/
theorem version_parse_then_format_canonical_witness :
    ∃ v : Version, Version.parse "18.1" = some v ∧
      Version.repr v = pyStr v.major ++ "." ++ pyStr v.minor ++ "." ++ pyStr v.patch ∧
      pyInt (["18", "1"].headD "") = some v.major ∧
      (∀ m, ["18", "1"].get? 1 = some m → pyInt m = some v.minor) ∧
      (∀ m, ["18", "1"].get? 2 = some m → pyInt m = some v.patch) ∧
      ((["18", "1"] : List String).length = 1 → v.minor = 0 ∧ v.patch = 0) ∧
      ((["18", "1"] : List String).length = 2 → v.patch = 0) :=
  version_parse_then_format_canonical "18.1" ["18", "1"] rfl (by decide) (by decide)
    (by decide)

/-- C8: `Version` comparison is a strict total order, lexicographic on
(major, minor, patch): total, asymmetric and transitive, with equality
exactly when all three components are equal; and comparing with any
non-`Version` value raises the `ValueError` of lines 51/58. -/
theorem version_order_strict_total (a b c : Version) (descr : String) :
    (a.ltPy (PyObj.version b) = Except.ok true ∨
      a.eqPy (PyObj.version b) = Except.ok true ∨
      b.ltPy (PyObj.version a) = Except.ok true) ∧
    (a.ltPy (PyObj.version b) = Except.ok true →
      b.ltPy (PyObj.version a) = Except.ok false) ∧
    (a.ltPy (PyObj.version b) = Except.ok true →
      b.ltPy (PyObj.version c) = Except.ok true →
      a.ltPy (PyObj.version c) = Except.ok true) ∧
    (a.eqPy (PyObj.version b) = Except.ok true ↔
      (a.major = b.major ∧ a.minor = b.minor ∧ a.patch = b.patch)) ∧
    (a.ltPy (PyObj.other descr) = Except.error versionCompareError ∧
      a.eqPy (PyObj.other descr) = Except.error versionCompareError) := by
  refine ⟨?_, ?_, ?_, ?_, rfl, rfl⟩
  · simp only [Version.ltPy, Version.eqPy, Except.ok.injEq, tripleLt_iff,
      Bool.and_eq_true, beq_iff_eq]
    omega
  · intro h
    simp only [Version.ltPy, Except.ok.injEq, tripleLt_iff] at h ⊢
    rw [show (tripleLt b a = false) ↔ ¬ (tripleLt b a = true) by simp, tripleLt_iff]
    omega
  · intro h h2
    simp only [Version.ltPy, Except.ok.injEq, tripleLt_iff] at h h2 ⊢
    omega
  · simp only [Version.eqPy, Except.ok.injEq, Bool.and_eq_true, beq_iff_eq]
    tauto

/-- Witness for C8: the transitivity conjunct applied at concrete versions,
and the type guard at a concrete non-version operand. -/
theorem version_order_strict_total_witness :
    Version.ltPy ⟨1, 0, 0⟩ (PyObj.version ⟨2, 1, 0⟩) = Except.ok true ∧
    Version.ltPy ⟨0, 9, 9⟩ (PyObj.other "a string") = Except.error versionCompareError :=
  ⟨(version_order_strict_total ⟨1, 0, 0⟩ ⟨1, 5, 0⟩ ⟨2, 1, 0⟩ "x").2.2.1 rfl rfl,
   ((version_order_strict_total ⟨0, 9, 9⟩ ⟨0, 0, 0⟩ ⟨0, 0, 0⟩ "a string").2.2.2.2).1⟩

/-- C10: a dotted version string with more than three components does not
fail to parse: the components past the third are silently ignored and the
`Version` is built from the first three alone. -/
theorem version_parse_ignores_extra_components (s : String) (p0 p1 p2 : String)
    (rest : List String) (a b c : Int)
    (hl : splitChar '.' s = p0 :: p1 :: p2 :: rest) (_hrest : rest ≠ [])
    (h0 : pyInt p0 = some a) (h1 : pyInt p1 = some b) (h2 : pyInt p2 = some c) :
    Version.parse s = some ⟨a, b, c⟩ := by
  have hgt1 : (p0 :: p1 :: p2 :: rest).length > 1 := by simp
  have hgt2 : (p0 :: p1 :: p2 :: rest).length > 2 := by simp
  simp [Version.parse, hl, h0, h1, h2, hgt1, hgt2]

/-- Witness for C10 at the input "1.2.3.4". -/
theorem version_parse_ignores_extra_components_witness :
    Version.parse "1.2.3.4" = some ⟨1, 2, 3⟩ :=
  version_parse_ignores_extra_components "1.2.3.4" "1" "2" "3" ["4"] 1 2 3 rfl
    (by decide) rfl rfl rfl

/-! ## Claim C9: the audit scan -/

/-- C9: scanning the two audit input lines yields the unversioned
dependency `libc.so.6` and the versioned record (GLIBC, (2, 34, 0)); each
line is tested against both patterns, the NEEDED line matching only the
NEEDED pattern and the version line matching only the version pattern. -/
theorem audit_scan_example_lines :
    (scanLines AuditState.init
        ["  NEEDED               libc.so.6",
         "    0x00000001 0x00 12 GLIBC_2.34"]).map
        (fun st => (st.dependencies, st.versions "GLIBC")) =
      Except.ok (["libc.so.6"], [⟨2, 34, 0⟩]) ∧
    matchNeeded "  NEEDED               libc.so.6" = some "libc.so.6" ∧
    matchVersionLine "  NEEDED               libc.so.6" = none ∧
    matchNeeded "    0x00000001 0x00 12 GLIBC_2.34" = none ∧
    matchVersionLine "    0x00000001 0x00 12 GLIBC_2.34" = some ("GLIBC", "2.34") ∧
    Version.parse "2.34" = some ⟨2, 34, 0⟩ :=
  ⟨rfl, rfl, rfl, rfl, rfl, rfl⟩

/-! ## Lemmas about the publish step -/

/-- Releases whose tag does not match are skipped by the reconcile loop
without any state change or request. -/
theorem reconcile_no_match (remote : Remote) (v n : String) (rs : List Release)
    (h : ∀ r ∈ rs, r.tag_name ≠ v) (uurl : Option UploadUrl) (s : GitHubState)
    (ops : List ApiOp) :
    ReconcileLoop remote v n rs uurl s ops = (Except.ok (uurl, s), ops) := by
  induction rs with
  | nil => rfl
  | cons r rest ih =>
    have hr : r.tag_name ≠ v := h r (by simp)
    simp only [ReconcileLoop, if_pos hr]
    exact ih (fun x hx => h x (by simp [hx]))

/-- A non-matching leading segment of the release list is skipped by the
reconcile loop. -/
theorem reconcile_skip_segment (remote : Remote) (v n : String)
    (l1 rs : List Release) (h : ∀ r ∈ l1, r.tag_name ≠ v) (uurl : Option UploadUrl)
    (s : GitHubState) (ops : List ApiOp) :
    ReconcileLoop remote v n (l1 ++ rs) uurl s ops =
      ReconcileLoop remote v n rs uurl s ops := by
  induction l1 with
  | nil => rfl
  | cons r rest ih =>
    have hr : r.tag_name ≠ v := h r (by simp)
    simp only [List.cons_append, ReconcileLoop, if_pos hr]
    exact ih (fun x hx => h x (by simp [hx]))

/-- Appending an asset lands on the first release satisfying the predicate
when no earlier release does. -/
theorem addToFirst_append (p : Release → Bool) (a : Asset) (l1 : List Release)
    (r : Release) (l2 : List Release) (h : ∀ x ∈ l1, p x = false)
    (hr : p r = true) :
    addToFirst p a (l1 ++ r :: l2) =
      l1 ++ { r with assets := r.assets ++ [a] } :: l2 := by
  induction l1 with
  | nil => simp [addToFirst, hr]
  | cons x xs ih =>
    have hx := h x (by simp)
    simp only [List.cons_append, addToFirst, hx, Bool.false_eq_true, if_false,
      List.cons.injEq, true_and]
    exact ih (fun y hy => h y (by simp [hy]))

/-- Filtering by a tag nothing carries gives the empty list. -/
theorem filter_tag_nil (v : String) (l : List Release)
    (h : ∀ r ∈ l, r.tag_name ≠ v) :
    l.filter (fun r => r.tag_name == v) = [] := by
  induction l with
  | nil => rfl
  | cons r rest ih =>
    have hr : (r.tag_name == v) = false := by
      simpa using h r (by simp)
    simp only [List.filter_cons, hr, Bool.false_eq_true, if_false]
    exact ih (fun x hx => h x (by simp [hx]))

/-- When a successful `find?` is unique in the filtered sense, the filter
is exactly that one hit. -/
theorem filter_eq_single_of_find? {α : Type} (pred : α → Bool) (l : List α)
    (a : α) (hf : l.find? pred = some a) (hone : (l.filter pred).length ≤ 1) :
    l.filter pred = [a] := by
  induction l with
  | nil => simp at hf
  | cons x xs ih =>
    by_cases hx : pred x = true
    · rw [List.find?_cons_of_pos _ hx] at hf
      have hxa : x = a := by injection hf
      subst hxa
      rw [List.filter_cons_of_pos hx] at hone ⊢
      have h0 : (xs.filter pred).length = 0 := by
        simp only [List.length_cons] at hone
        omega
      rw [List.length_eq_zero.mp h0]
    · rw [List.find?_cons_of_neg _ hx] at hf
      rw [List.filter_cons_of_neg hx] at hone ⊢
      exact ih hf hone

/-- The reconcile loop with an all-204 delete remote never fails, and the
requests it adds to the trace are asset deletions only. -/
theorem reconcile_ok_trace (remote : Remote) (v n : String)
    (hdel : remote.deleteStatus = 204) (rs : List Release) :
    ∀ uurl s ops, ∃ uurl2 s2 extra,
      ReconcileLoop remote v n rs uurl s ops = (Except.ok (uurl2, s2), ops ++ extra) ∧
      countLocates extra = 0 ∧ countUploads extra = 0 := by
  induction rs with
  | nil =>
    intro uurl s ops
    exact ⟨uurl, s, [], by simp [ReconcileLoop], rfl, rfl⟩
  | cons r rest ih =>
    intro uurl s ops
    by_cases htag : r.tag_name = v
    · cases hf : r.assets.find? (fun a => a.name == n) with
      | none =>
        obtain ⟨u2, s2, extra, heq, hcl, hcu⟩ :=
          ih (some ⟨r.upload_endpoint, true⟩) s ops
        refine ⟨u2, s2, extra, ?_, hcl, hcu⟩
        simpa only [ReconcileLoop, htag, ne_eq, not_true_eq_false, if_false, hf]
          using heq
      | some a =>
        obtain ⟨u2, s2, extra, heq, hcl, hcu⟩ :=
          ih (some ⟨r.upload_endpoint, true⟩) (deleteAssetById a.id s)
            (ops ++ [ApiOp.deleteAsset a.id])
        refine ⟨u2, s2, ApiOp.deleteAsset a.id :: extra, ?_, ?_, ?_⟩
        · have hstep : ReconcileLoop remote v n (r :: rest) uurl s ops =
              ReconcileLoop remote v n rest (some ⟨r.upload_endpoint, true⟩)
                (deleteAssetById a.id s) (ops ++ [ApiOp.deleteAsset a.id]) := by
            simp [ReconcileLoop, htag, hf, hdel]
          rw [hstep, heq, List.append_assoc]
          rfl
        · simpa [countLocates] using hcl
        · simpa [countUploads] using hcu
    · obtain ⟨u2, s2, extra, heq, hcl, hcu⟩ := ih uurl s ops
      refine ⟨u2, s2, extra, ?_, hcl, hcu⟩
      simpa only [ReconcileLoop, if_pos htag] using heq

/-- A publish run against a store holding no release tagged with the bundle
version: the release gets created with the computed name, body and
prerelease flag, and the artifact is uploaded to it as its only asset. -/
theorem upload_create_case (args : Args) (p : String) (s : GitHubState)
    (htag : ∀ r ∈ s.releases, r.tag_name ≠ GetBundleVersion args)
    (hep : ∀ r ∈ s.releases, r.upload_endpoint ≠ s.nextEndpoint) :
    UploadLlvm Remote.ok args p s =
      (Except.ok
        (⟨s.releases ++
            [⟨GetBundleVersion args, ReleaseName args, ReleaseBody args,
              ReleasePrerelease args, s.nextEndpoint,
              [⟨pyBasename p, s.nextAssetId⟩]⟩],
          s.nextAssetId + 1, s.nextEndpoint + 1⟩ : GitHubState),
       [ApiOp.listReleases,
        ApiOp.createRelease (GetBundleVersion args) (ReleaseName args)
          (ReleaseBody args) (ReleasePrerelease args),
        ApiOp.uploadAsset s.nextEndpoint false (pyBasename p)]) := by
  have hrec := reconcile_no_match ⟨200, 204, 201, 201, ""⟩
    (GetBundleVersion args) (pyBasename p) s.releases htag none s [ApiOp.listReleases]
  have hadd := addToFirst_append
    (fun r => r.upload_endpoint == s.nextEndpoint) ⟨pyBasename p, s.nextAssetId⟩
    s.releases
    ⟨GetBundleVersion args, ReleaseName args, ReleaseBody args,
      ReleasePrerelease args, s.nextEndpoint, []⟩
    []
    (fun x hx => by simpa using hep x hx)
    (by simp)
  simp [UploadLlvm, Remote.ok, hrec, CreateRelease, addAsset, hadd]

/-- A publish run against a store holding a release tagged with the bundle
version but no asset named like the artifact: no delete happens and the
artifact is uploaded to that release. -/
theorem upload_found_no_asset (args : Args) (p : String)
    (pre post : List Release) (R : Release) (na ne : Nat)
    (hpre : ∀ r ∈ pre, r.tag_name ≠ GetBundleVersion args)
    (hpost : ∀ r ∈ post, r.tag_name ≠ GetBundleVersion args)
    (hR : R.tag_name = GetBundleVersion args)
    (hep : ∀ r ∈ pre, r.upload_endpoint ≠ R.upload_endpoint)
    (hf : R.assets.find? (fun x => x.name == pyBasename p) = none) :
    UploadLlvm Remote.ok args p ⟨pre ++ R :: post, na, ne⟩ =
      (Except.ok
        (⟨pre ++ { R with assets := R.assets ++ [⟨pyBasename p, na⟩] } :: post,
          na + 1, ne⟩ : GitHubState),
       [ApiOp.listReleases,
        ApiOp.uploadAsset R.upload_endpoint false (pyBasename p)]) := by
  have h1 : ReconcileLoop ⟨200, 204, 201, 201, ""⟩ (GetBundleVersion args)
      (pyBasename p) (pre ++ R :: post) none
      (⟨pre ++ R :: post, na, ne⟩ : GitHubState) [ApiOp.listReleases] =
      (Except.ok (some ⟨R.upload_endpoint, true⟩,
        (⟨pre ++ R :: post, na, ne⟩ : GitHubState)), [ApiOp.listReleases]) := by
    rw [reconcile_skip_segment _ _ _ pre _ hpre]
    simp only [ReconcileLoop, hR, ne_eq, not_true_eq_false, if_false, hf]
    exact reconcile_no_match _ _ _ post hpost _ _ _
  have hadd := addToFirst_append
    (fun r => r.upload_endpoint == R.upload_endpoint) ⟨pyBasename p, na⟩
    pre R post
    (fun x hx => by simpa using hep x hx)
    (by simp)
  simp [UploadLlvm, Remote.ok, h1, addAsset, hadd]

/-- A publish run against a store holding a release tagged with the bundle
version that carries an asset named like the artifact: exactly the first
such asset (the one `find?` returns) is deleted, then the artifact is
uploaded.  Assets of that id are removed storewide, matching the remote's
delete-by-id. -/
theorem upload_found_first_asset (args : Args) (p : String)
    (pre post : List Release) (R : Release) (na ne : Nat) (a : Asset)
    (hpre : ∀ r ∈ pre, r.tag_name ≠ GetBundleVersion args)
    (hpost : ∀ r ∈ post, r.tag_name ≠ GetBundleVersion args)
    (hR : R.tag_name = GetBundleVersion args)
    (hep : ∀ r ∈ pre, r.upload_endpoint ≠ R.upload_endpoint)
    (hf : R.assets.find? (fun x => x.name == pyBasename p) = some a) :
    UploadLlvm Remote.ok args p ⟨pre ++ R :: post, na, ne⟩ =
      (Except.ok
        (⟨pre.map (stripAsset a.id) ++
            { R with assets := (R.assets.filter (fun x => x.id ≠ a.id)) ++
                [⟨pyBasename p, na⟩] } :: post.map (stripAsset a.id),
          na + 1, ne⟩ : GitHubState),
       [ApiOp.listReleases, ApiOp.deleteAsset a.id,
        ApiOp.uploadAsset R.upload_endpoint false (pyBasename p)]) := by
  have h1 : ReconcileLoop ⟨200, 204, 201, 201, ""⟩ (GetBundleVersion args)
      (pyBasename p) (pre ++ R :: post) none
      (⟨pre ++ R :: post, na, ne⟩ : GitHubState) [ApiOp.listReleases] =
      (Except.ok (some ⟨R.upload_endpoint, true⟩,
        deleteAssetById a.id (⟨pre ++ R :: post, na, ne⟩ : GitHubState)),
       [ApiOp.listReleases, ApiOp.deleteAsset a.id]) := by
    rw [reconcile_skip_segment _ _ _ pre _ hpre]
    simp only [ReconcileLoop, hR, ne_eq, not_true_eq_false, if_false, hf]
    exact reconcile_no_match _ _ _ post hpost _ _ _
  have hadd := addToFirst_append
    (fun r => r.upload_endpoint == R.upload_endpoint) ⟨pyBasename p, na⟩
    (pre.map (stripAsset a.id)) (stripAsset a.id R) (post.map (stripAsset a.id))
    (fun x hx => by
      obtain ⟨r, hr, rfl⟩ := List.mem_map.mp hx
      simpa [stripAsset] using hep r hr)
    (by simp [stripAsset])
  simp [stripAsset] at hadd
  simp [UploadLlvm, Remote.ok, h1, addAsset, deleteAssetById, stripAsset, hadd]

/-- The reconcile loop against a remote rejecting the DELETE: reaching the
matching release and its first matching asset, the loop issues that one
delete, gets the non-204 status, and exits with the line-232 message —
leaving the state as it was and performing no upload. -/
theorem reconcile_delete_failure (remote : Remote) (v n : String)
    (hdel : remote.deleteStatus ≠ 204) (pre post : List Release) (R : Release)
    (a : Asset) (hpre : ∀ r ∈ pre, r.tag_name ≠ v) (hR : R.tag_name = v)
    (hf : R.assets.find? (fun x => x.name == n) = some a)
    (uurl : Option UploadUrl) (s : GitHubState) (ops : List ApiOp) :
    ReconcileLoop remote v n (pre ++ R :: post) uurl s ops =
      (Except.error ("Creating release failed with message: " ++ remote.errMessage),
       ops ++ [ApiOp.deleteAsset a.id]) := by
  rw [reconcile_skip_segment _ _ _ pre _ hpre]
  simp only [ReconcileLoop, hR, ne_eq, not_true_eq_false, if_false, hf]
  simp [hdel]

/-- A leading segment is a substring occurrence. -/
theorem isPrefList_self_append (x y : List Char) : isPrefList x (x ++ y) = true := by
  induction x with
  | nil => rfl
  | cons c cs ih => simp [isPrefList, ih]

/-- A trailing segment is a substring occurrence. -/
theorem hasSubstr_append_self (pat stem : List Char) :
    hasSubstr pat (stem ++ pat) = true := by
  induction stem with
  | nil =>
    cases pat with
    | nil => rfl
    | cons c cs =>
      have h := isPrefList_self_append (c :: cs) []
      rw [List.append_nil] at h
      simp [hasSubstr, h]
  | cons c cs ih => simp [hasSubstr, ih]

/-! ## Claims C5, C6: the retry wrapper -/

/-- C6: an operation that fails retriably on every invocation is invoked
exactly 4 times (the initial attempt plus the 3 retries of
`max_retries = 3`) and the wrapper then aborts. -/
theorem retries_always_failing_four_attempts (op : Nat → Option String)
    (h : ∀ i, (op i).isSome = true) :
    (Retries op).1 = Except.error (retriesExceededMsg 3) ∧
    (Retries op).2.2 = 4 := by
  obtain ⟨e0, h0⟩ := Option.isSome_iff_exists.mp (h 0)
  obtain ⟨e1, h1⟩ := Option.isSome_iff_exists.mp (h 1)
  obtain ⟨e2, h2⟩ := Option.isSome_iff_exists.mp (h 2)
  obtain ⟨e3, h3⟩ := Option.isSome_iff_exists.mp (h 3)
  refine ⟨?_, ?_⟩ <;> simp [Retries, RetriesLoop, h0, h1, h2, h3]

/-- Witness for C6: the always-failing operation returning "x". -/
theorem retries_always_failing_four_attempts_witness :
    (Retries (fun _ => some "x")).1 = Except.error (retriesExceededMsg 3) ∧
    (Retries (fun _ => some "x")).2.2 = 4 :=
  retries_always_failing_four_attempts (fun _ => some "x") (fun _ => rfl)

/-- C5 counterexample: with an operation that always fails with "boom", the
message the wrapper finally aborts with is the fixed retries-exceeded text,
and the last underlying error "boom" does not occur in it — the claim that
the surfaced failure carries the last error is false on the code. -/
theorem retries_exit_lacks_last_error :
    (Retries (fun _ => some "boom")).1 = Except.error (retriesExceededMsg 3) ∧
    retriesExceededMsg 3 = "Number of retries exceeded (3). Aborting." ∧
    hasSubstr "boom".data (retriesExceededMsg 3).data = false :=
  ⟨rfl, rfl, rfl⟩

/-- C5 as amended: when the retry budget is exhausted, the wrapper aborts
with the fixed retries-exceeded message, which names only the retry bound;
the underlying errors, the last one included, appear only in the log lines
printed on each retry. -/
theorem retries_exhaustion_fixed_message (op : Nat → Option String)
    (e : Nat → String) (h : ∀ i, op i = some (e i)) :
    Retries op =
      (Except.error (retriesExceededMsg 3),
       [retryLogLine (e 0) 1, retryLogLine (e 1) 2, retryLogLine (e 2) 3,
        retryLogLine (e 3) 4], 4) := by
  simp [Retries, RetriesLoop, h]

/-- Witness for the amended C5. -/
theorem retries_exhaustion_fixed_message_witness :
    Retries (fun _ => some "no internet") =
      (Except.error (retriesExceededMsg 3),
       [retryLogLine "no internet" 1, retryLogLine "no internet" 2,
        retryLogLine "no internet" 3, retryLogLine "no internet" 4], 4) :=
  retries_exhaustion_fixed_message (fun _ => some "no internet")
    (fun _ => "no internet") (fun _ => rfl)

/-- The Locate count of a trace is additive. -/
theorem countLocates_append (xs ys : List ApiOp) :
    countLocates (xs ++ ys) = countLocates xs + countLocates ys := by
  simp [countLocates, List.filter_append]

/-! ## Claim C1: publish idempotence -/

/-- C1: publishing a version with an artifact against a store holding no
release tagged with that bundle version, twice, converges to exactly one
release with that tag holding exactly one asset with the artifact's name,
and the second run's reconcile performs exactly one asset delete followed
by one upload — its full request trace is the listing, one delete, and one
upload, in that order. -/
theorem publish_twice_idempotent (args : Args) (p : String) (s : GitHubState)
    (htag : ∀ r ∈ s.releases, r.tag_name ≠ GetBundleVersion args)
    (hep : ∀ r ∈ s.releases, r.upload_endpoint ≠ s.nextEndpoint) :
    ∃ s1 s2 : GitHubState,
      (UploadLlvm Remote.ok args p s).1 = Except.ok s1 ∧
      UploadLlvm Remote.ok args p s1 =
        (Except.ok s2,
         [ApiOp.listReleases, ApiOp.deleteAsset s.nextAssetId,
          ApiOp.uploadAsset s.nextEndpoint false (pyBasename p)]) ∧
      countReleasesTagged (GetBundleVersion args) s2 = 1 ∧
      countAssetsNamed (GetBundleVersion args) (pyBasename p) s2 = 1 := by
  have h1 := upload_create_case args p s htag hep
  have h2 := upload_found_first_asset args p s.releases []
    (⟨GetBundleVersion args, ReleaseName args, ReleaseBody args,
      ReleasePrerelease args, s.nextEndpoint,
      [⟨pyBasename p, s.nextAssetId⟩]⟩ : Release)
    (s.nextAssetId + 1) (s.nextEndpoint + 1)
    (⟨pyBasename p, s.nextAssetId⟩ : Asset)
    htag (by simp) rfl hep (by simp)
  have hmaptag : ∀ r ∈ s.releases.map (stripAsset s.nextAssetId),
      r.tag_name ≠ GetBundleVersion args := by
    intro r hr
    obtain ⟨r0, hr0, rfl⟩ := List.mem_map.mp hr
    simpa [stripAsset] using htag r0 hr0
  refine ⟨_, _, by rw [h1], h2, ?_, ?_⟩
  · rw [countReleasesTagged, List.filter_append, filter_tag_nil _ _ hmaptag]
    simp
  · rw [countAssetsNamed, List.filter_append, filter_tag_nil _ _ hmaptag]
    simp

/-- Witness for C1: publishing "18.1.0" twice into an empty store. -/
theorem publish_twice_idempotent_witness :
    ∃ s1 s2 : GitHubState,
      (UploadLlvm Remote.ok ⟨"18.1.0", none⟩ "d/b.tar.xz" ⟨[], 0, 0⟩).1 =
        Except.ok s1 ∧
      UploadLlvm Remote.ok ⟨"18.1.0", none⟩ "d/b.tar.xz" s1 =
        (Except.ok s2,
         [ApiOp.listReleases, ApiOp.deleteAsset 0,
          ApiOp.uploadAsset 0 false (pyBasename "d/b.tar.xz")]) ∧
      countReleasesTagged (GetBundleVersion ⟨"18.1.0", none⟩) s2 = 1 ∧
      countAssetsNamed (GetBundleVersion ⟨"18.1.0", none⟩)
        (pyBasename "d/b.tar.xz") s2 = 1 :=
  publish_twice_idempotent ⟨"18.1.0", none⟩ "d/b.tar.xz" ⟨[], 0, 0⟩
    (fun r hr => absurd hr (List.not_mem_nil r))
    (fun r hr => absurd hr (List.not_mem_nil r))

/-! ## Claim C2: no top-level retry around the publish step -/

/-- C2 counterexample: with a remote on which the upload POST fails, the
publish step of `Main` makes exactly one attempt — its trace contains a
single Locate listing — and surfaces the `sys.exit` error: nothing re-runs
the sequence from Locate, because `Main` calls `UploadLlvm` directly and
the `Retries` wrapper is never applied to it. -/
theorem publish_failure_aborts_immediately :
    MainPublish ⟨200, 204, 201, 500, "boom"⟩ ⟨"18.1.0", none⟩ "b/a.tar.xz"
        ⟨[], 0, 0⟩ =
      (Except.error "Uploading failed with message: boom",
       [ApiOp.listReleases,
        ApiOp.createRelease "18.1.0" "LLVM and Clang 18.1.0"
          "LLVM and Clang 18.1.0 without realtime, terminfo, and zlib dependencies."
          false,
        ApiOp.uploadAsset 0 false "a.tar.xz"]) ∧
    countLocates
      [ApiOp.listReleases,
       ApiOp.createRelease "18.1.0" "LLVM and Clang 18.1.0"
         "LLVM and Clang 18.1.0 without realtime, terminfo, and zlib dependencies."
         false,
       ApiOp.uploadAsset 0 false "a.tar.xz"] = 1 :=
  ⟨rfl, rfl⟩

/-- C2 as amended: `Main` invokes `UploadLlvm` directly, without the
`Retries` wrapper, so a RemoteApiError partway through the sequence aborts
the whole process on the first failure with exactly one Locate listing in
the trace — both when the failure strikes the Upload POST (second conjunct)
and when it strikes the Reconcile DELETE of a matching asset (third
conjunct); nothing ever re-runs the sequence from Locate. -/
theorem publish_single_attempt_on_failure (remote : Remote) (args : Args)
    (p : String) (hget : remote.getStatus = 200) :
    (∀ s : GitHubState, MainPublish remote args p s = UploadLlvm remote args p s) ∧
    (∀ s : GitHubState, remote.deleteStatus = 204 → remote.createStatus = 201 →
      remote.uploadStatus ≠ 201 →
      (MainPublish remote args p s).1 =
        Except.error ("Uploading failed with message: " ++ remote.errMessage) ∧
      countLocates (MainPublish remote args p s).2 = 1) ∧
    (∀ (pre post : List Release) (R : Release) (na ne : Nat) (a : Asset),
      remote.deleteStatus ≠ 204 →
      (∀ r ∈ pre, r.tag_name ≠ GetBundleVersion args) →
      R.tag_name = GetBundleVersion args →
      R.assets.find? (fun x => x.name == pyBasename p) = some a →
      MainPublish remote args p ⟨pre ++ R :: post, na, ne⟩ =
        (Except.error
          ("Creating release failed with message: " ++ remote.errMessage),
         [ApiOp.listReleases, ApiOp.deleteAsset a.id]) ∧
      countLocates
        (MainPublish remote args p ⟨pre ++ R :: post, na, ne⟩).2 = 1) := by
  refine ⟨fun s => rfl, ?_, ?_⟩
  · intro s hdel hcr hup
    obtain ⟨u2, s2, extra, heq, hcl, hcu⟩ :=
      reconcile_ok_trace remote (GetBundleVersion args) (pyBasename p) hdel
        s.releases none s [ApiOp.listReleases]
    have hrun : UploadLlvm remote args p s =
        (Except.error ("Uploading failed with message: " ++ remote.errMessage),
         match u2 with
         | some _ => ([ApiOp.listReleases] ++ extra) ++
             [ApiOp.uploadAsset
               (match u2 with | some u => u.endpoint | none => 0) false
               (pyBasename p)]
         | none => (([ApiOp.listReleases] ++ extra) ++
             [ApiOp.createRelease (GetBundleVersion args) (ReleaseName args)
               (ReleaseBody args) (ReleasePrerelease args)]) ++
             [ApiOp.uploadAsset s2.nextEndpoint false (pyBasename p)]) := by
      cases u2 with
      | some u => simp [UploadLlvm, hget, heq, hup]
      | none => simp [UploadLlvm, hget, heq, hup, CreateRelease, hcr]
    rw [MainPublish, hrun]
    cases u2 with
    | some u =>
      refine ⟨rfl, ?_⟩
      simp only [countLocates_append, hcl]
      rfl
    | none =>
      refine ⟨rfl, ?_⟩
      simp only [countLocates_append, hcl]
      rfl
  · intro pre post R na ne a hdel hpre hR hf
    have hrec := reconcile_delete_failure remote (GetBundleVersion args)
      (pyBasename p) hdel pre post R a hpre hR hf none
      (⟨pre ++ R :: post, na, ne⟩ : GitHubState) [ApiOp.listReleases]
    have hrun : MainPublish remote args p ⟨pre ++ R :: post, na, ne⟩ =
        (Except.error
          ("Creating release failed with message: " ++ remote.errMessage),
         [ApiOp.listReleases, ApiOp.deleteAsset a.id]) := by
      simp [MainPublish, UploadLlvm, hget, hrec]
    exact ⟨hrun, by rw [hrun]; rfl⟩

/-- Witness for the amended C2: first a remote rejecting the upload with a
422 (Upload-failure arm), then a remote rejecting the asset delete with a
403 against a store holding the matching release and asset
(Reconcile-failure arm). -/
theorem publish_single_attempt_on_failure_witness :
    ((MainPublish ⟨200, 204, 201, 422, "Validation Failed"⟩ ⟨"19.1.0", none⟩
        "o/c.tar.xz" ⟨[], 3, 7⟩).1 =
      Except.error ("Uploading failed with message: " ++
        (⟨200, 204, 201, 422, "Validation Failed"⟩ : Remote).errMessage) ∧
     countLocates (MainPublish ⟨200, 204, 201, 422, "Validation Failed"⟩
        ⟨"19.1.0", none⟩ "o/c.tar.xz" ⟨[], 3, 7⟩).2 = 1) ∧
    (MainPublish ⟨200, 403, 201, 201, "Forbidden"⟩ ⟨"18.1.0", none⟩ "b/a.tar.xz"
        ⟨[] ++ (⟨"18.1.0", "r", "d", false, 0, [⟨"a.tar.xz", 5⟩]⟩ : Release)
          :: [], 9, 4⟩ =
      (Except.error ("Creating release failed with message: " ++
        (⟨200, 403, 201, 201, "Forbidden"⟩ : Remote).errMessage),
       [ApiOp.listReleases,
        ApiOp.deleteAsset (⟨"a.tar.xz", 5⟩ : Asset).id]) ∧
     countLocates (MainPublish ⟨200, 403, 201, 201, "Forbidden"⟩ ⟨"18.1.0", none⟩
        "b/a.tar.xz"
        ⟨[] ++ (⟨"18.1.0", "r", "d", false, 0, [⟨"a.tar.xz", 5⟩]⟩ : Release)
          :: [], 9, 4⟩).2 = 1) :=
  ⟨(publish_single_attempt_on_failure ⟨200, 204, 201, 422, "Validation Failed"⟩
      ⟨"19.1.0", none⟩ "o/c.tar.xz" rfl).2.1 ⟨[], 3, 7⟩ rfl rfl (by decide),
   (publish_single_attempt_on_failure ⟨200, 403, 201, 201, "Forbidden"⟩
      ⟨"18.1.0", none⟩ "b/a.tar.xz" rfl).2.2 [] []
      ⟨"18.1.0", "r", "d", false, 0, [⟨"a.tar.xz", 5⟩]⟩ 9 4 ⟨"a.tar.xz", 5⟩
      (by decide) (fun r hr => absurd hr (List.not_mem_nil r)) rfl rfl⟩

/-! ## Claim C3: the reconcile delete and the uniqueness invariant -/

/-- C3 counterexample: a release tagged "18.1.0" already holding two assets
named `a.tar.xz`.  The claim says the reconcile step deletes every asset of
that name so that at most one remains after upload; the code's inner loop
breaks after the first delete, so this publish run performs exactly one
delete and leaves two assets with that name under the release. -/
theorem duplicate_named_assets_survive :
    countAssetsNamed "18.1.0" "a.tar.xz"
      ⟨[⟨"18.1.0", "r", "d", false, 0,
        [⟨"a.tar.xz", 1⟩, ⟨"a.tar.xz", 2⟩]⟩], 10, 5⟩ = 2 ∧
    (UploadLlvm Remote.ok ⟨"18.1.0", none⟩ "b/a.tar.xz"
        ⟨[⟨"18.1.0", "r", "d", false, 0,
          [⟨"a.tar.xz", 1⟩, ⟨"a.tar.xz", 2⟩]⟩], 10, 5⟩).1.map
      (countAssetsNamed "18.1.0" "a.tar.xz") = Except.ok 2 ∧
    countDeletes (UploadLlvm Remote.ok ⟨"18.1.0", none⟩ "b/a.tar.xz"
        ⟨[⟨"18.1.0", "r", "d", false, 0,
          [⟨"a.tar.xz", 1⟩, ⟨"a.tar.xz", 2⟩]⟩], 10, 5⟩).2 = 1 :=
  ⟨rfl, rfl, rfl⟩

/-- C3 as amended: for the release whose tag equals the bundle version, the
reconcile step deletes only the first pre-existing asset whose name equals
the target filename (one delete per run, none when there is none), so after
Upload exactly one asset with that name exists provided at most one existed
beforehand. -/
theorem reconcile_deletes_first_named_asset (args : Args) (p : String)
    (pre post : List Release) (R : Release) (na ne : Nat)
    (hpre : ∀ r ∈ pre, r.tag_name ≠ GetBundleVersion args)
    (hpost : ∀ r ∈ post, r.tag_name ≠ GetBundleVersion args)
    (hR : R.tag_name = GetBundleVersion args)
    (hep : ∀ r ∈ pre, r.upload_endpoint ≠ R.upload_endpoint)
    (hone : (R.assets.filter (fun x => x.name == pyBasename p)).length ≤ 1) :
    ∃ res : GitHubState,
      (UploadLlvm Remote.ok args p ⟨pre ++ R :: post, na, ne⟩).1 =
        Except.ok res ∧
      countAssetsNamed (GetBundleVersion args) (pyBasename p) res = 1 ∧
      countDeletes (UploadLlvm Remote.ok args p ⟨pre ++ R :: post, na, ne⟩).2 =
        (R.assets.filter (fun x => x.name == pyBasename p)).length ∧
      (∀ a : Asset, R.assets.find? (fun x => x.name == pyBasename p) = some a →
        (UploadLlvm Remote.ok args p ⟨pre ++ R :: post, na, ne⟩).2 =
          [ApiOp.listReleases, ApiOp.deleteAsset a.id,
           ApiOp.uploadAsset R.upload_endpoint false (pyBasename p)]) := by
  cases hf : R.assets.find? (fun x => x.name == pyBasename p) with
  | none =>
    have h := upload_found_no_asset args p pre post R na ne hpre hpost hR hep hf
    have hfempty : R.assets.filter (fun x => x.name == pyBasename p) = [] :=
      List.filter_eq_nil_iff.mpr (by
        intro x hx
        have := List.find?_eq_none.mp hf x hx
        simpa using this)
    refine ⟨_, by rw [h], ?_, ?_, ?_⟩
    · rw [countAssetsNamed]
      rw [List.filter_append, filter_tag_nil _ _ hpre]
      have hcons : List.filter
          (fun r : Release => r.tag_name == GetBundleVersion args)
          ({ R with assets := R.assets ++ [⟨pyBasename p, na⟩] } :: post) =
          { R with assets := R.assets ++ [⟨pyBasename p, na⟩] } ::
            List.filter (fun r : Release => r.tag_name == GetBundleVersion args)
              post := by
        rw [List.filter_cons_of_pos (by simpa using hR)]
      rw [hcons, filter_tag_nil _ _ hpost]
      simp [List.filter_append, hfempty]
    · rw [h, hfempty]
      rfl
    · intro a ha
      simp at ha
  | some a =>
    have h := upload_found_first_asset args p pre post R na ne a hpre hpost hR
      hep hf
    have hfsingle : R.assets.filter (fun x => x.name == pyBasename p) = [a] :=
      filter_eq_single_of_find? _ _ _ hf hone
    refine ⟨_, by rw [h], ?_, ?_, ?_⟩
    · rw [countAssetsNamed]
      rw [List.filter_append, filter_tag_nil _ _ (fun r hr => by
        obtain ⟨r0, hr0, rfl⟩ := List.mem_map.mp hr
        simpa [stripAsset] using hpre r0 hr0)]
      have hcons : List.filter
          (fun r : Release => r.tag_name == GetBundleVersion args)
          ({ R with assets := (R.assets.filter (fun x => x.id ≠ a.id)) ++
              [⟨pyBasename p, na⟩] } :: post.map (stripAsset a.id)) =
          { R with assets := (R.assets.filter (fun x => x.id ≠ a.id)) ++
              [⟨pyBasename p, na⟩] } ::
            List.filter (fun r : Release => r.tag_name == GetBundleVersion args)
              (post.map (stripAsset a.id)) := by
        rw [List.filter_cons_of_pos (by simpa using hR)]
      rw [hcons, filter_tag_nil _ _ (fun r hr => by
        obtain ⟨r0, hr0, rfl⟩ := List.mem_map.mp hr
        simpa [stripAsset] using hpost r0 hr0)]
      have hcomm : (R.assets.filter (fun x => x.id ≠ a.id)).filter
            (fun x => x.name == pyBasename p) =
          (R.assets.filter (fun x => x.name == pyBasename p)).filter
            (fun x => x.id ≠ a.id) := List.filter_comm _ _ _
      simp [List.filter_append, hcomm, hfsingle]
      intro x hx hname
      have hxmem : x ∈ R.assets.filter (fun y => y.name == pyBasename p) :=
        List.mem_filter.mpr ⟨hx, by simp [hname]⟩
      rw [hfsingle] at hxmem
      simp at hxmem
      rw [hxmem]
    · rw [h, hfsingle]
      rfl
    · intro a2 ha2
      injection ha2 with ha2
      subst ha2
      rw [h]

/-- Witness for the amended C3: a release with exactly one asset of the
target name, which gets deleted and re-uploaded. -/
theorem reconcile_deletes_first_named_asset_witness :
    ∃ res : GitHubState,
      (UploadLlvm Remote.ok ⟨"18.1.0", none⟩ "x/c.tar.xz"
          ⟨[] ++ (⟨"18.1.0", "r", "d", false, 4, [⟨"c.tar.xz", 9⟩]⟩ : Release)
            :: [], 20, 6⟩).1 = Except.ok res ∧
      countAssetsNamed (GetBundleVersion ⟨"18.1.0", none⟩)
        (pyBasename "x/c.tar.xz") res = 1 ∧
      countDeletes (UploadLlvm Remote.ok ⟨"18.1.0", none⟩ "x/c.tar.xz"
          ⟨[] ++ (⟨"18.1.0", "r", "d", false, 4, [⟨"c.tar.xz", 9⟩]⟩ : Release)
            :: [], 20, 6⟩).2 =
        ((⟨"18.1.0", "r", "d", false, 4, [⟨"c.tar.xz", 9⟩]⟩ : Release).assets.filter
          (fun x => x.name == pyBasename "x/c.tar.xz")).length ∧
      (∀ a : Asset,
        (⟨"18.1.0", "r", "d", false, 4, [⟨"c.tar.xz", 9⟩]⟩ : Release).assets.find?
          (fun x => x.name == pyBasename "x/c.tar.xz") = some a →
        (UploadLlvm Remote.ok ⟨"18.1.0", none⟩ "x/c.tar.xz"
            ⟨[] ++ (⟨"18.1.0", "r", "d", false, 4, [⟨"c.tar.xz", 9⟩]⟩ : Release)
              :: [], 20, 6⟩).2 =
          [ApiOp.listReleases, ApiOp.deleteAsset a.id,
           ApiOp.uploadAsset
             (⟨"18.1.0", "r", "d", false, 4, [⟨"c.tar.xz", 9⟩]⟩ : Release).upload_endpoint
             false (pyBasename "x/c.tar.xz")]) :=
  reconcile_deletes_first_named_asset ⟨"18.1.0", none⟩ "x/c.tar.xz" [] []
    ⟨"18.1.0", "r", "d", false, 4, [⟨"c.tar.xz", 9⟩]⟩ 20 6
    (fun r hr => absurd hr (List.not_mem_nil r))
    (fun r hr => absurd hr (List.not_mem_nil r))
    rfl
    (fun r hr => absurd hr (List.not_mem_nil r))
    (by decide)

/-! ## Claim C4: release-candidate flagging and naming -/

/-- C4 counterexample: invoking publish with release-candidate number 0 —
a supplied candidate number — on an empty store creates a release with
`prerelease = true` but the display name "LLVM and Clang 18.1.0": "RC0"
does not occur in it at all, so in particular the name does not end with
"RC0" (no decomposition `stem ++ "RC0"` exists).  Cause: line 240 tests the
candidate for truthiness — and 0 is falsy — while line 238 tests it against
`None`. -/
theorem rc_zero_prerelease_without_suffix :
    (⟨"18.1.0", some 0⟩ : Args).release_candidate.isSome = true ∧
    (UploadLlvm Remote.ok ⟨"18.1.0", some 0⟩ "b/a.tar.xz" ⟨[], 0, 0⟩).1 =
      Except.ok ⟨[⟨"18.1.0", "LLVM and Clang 18.1.0",
        "LLVM and Clang 18.1.0 without realtime, terminfo, and zlib dependencies.",
        true, 0, [⟨"a.tar.xz", 0⟩]⟩], 1, 1⟩ ∧
    hasSubstr "RC0".data "LLVM and Clang 18.1.0".data = false ∧
    ¬ ∃ stem : String, "LLVM and Clang 18.1.0" = stem ++ "RC0" := by
  refine ⟨rfl, rfl, rfl, ?_⟩
  rintro ⟨stem, h⟩
  have h2 : hasSubstr "RC0".data "LLVM and Clang 18.1.0".data = true := by
    rw [h, String.data_append]
    exact hasSubstr_append_self _ _
  exact absurd h2 (by decide)

/-- C4 as amended: when a release gets created (both in the POST body and
in the stored release), its prerelease flag is true iff a release-candidate
number was supplied (line 238 tests against `None`); the display name
carries the " RC<N>" suffix — in particular it ends with "RC<N>" — exactly
when that number N is nonzero (line 240 tests truthiness), and is the bare
"LLVM and Clang <version>" when the number is 0 or absent. -/
theorem create_prerelease_and_rc_name (args : Args) (p : String)
    (s : GitHubState)
    (htag : ∀ r ∈ s.releases, r.tag_name ≠ GetBundleVersion args)
    (hep : ∀ r ∈ s.releases, r.upload_endpoint ≠ s.nextEndpoint) :
    ∃ res : GitHubState,
      (UploadLlvm Remote.ok args p s).1 = Except.ok res ∧
      (UploadLlvm Remote.ok args p s).2 =
        [ApiOp.listReleases,
         ApiOp.createRelease (GetBundleVersion args) (ReleaseName args)
           (ReleaseBody args) (ReleasePrerelease args),
         ApiOp.uploadAsset s.nextEndpoint false (pyBasename p)] ∧
      res.releases.filter (fun r => r.tag_name == GetBundleVersion args) =
        [⟨GetBundleVersion args, ReleaseName args, ReleaseBody args,
          ReleasePrerelease args, s.nextEndpoint,
          [⟨pyBasename p, s.nextAssetId⟩]⟩] ∧
      ReleasePrerelease args = (args.release_candidate).isSome ∧
      (∀ n : Int, args.release_candidate = some n → n ≠ 0 →
        ReleaseName args = "LLVM and Clang " ++ args.version ++ " RC" ++ pyStr n ∧
        ∃ stem : String, ReleaseName args = stem ++ ("RC" ++ pyStr n)) ∧
      ((args.release_candidate = some 0 ∨ args.release_candidate = none) →
        ReleaseName args = "LLVM and Clang " ++ args.version) := by
  have h := upload_create_case args p s htag hep
  refine ⟨_, by rw [h], by rw [h], ?_, rfl, ?_, ?_⟩
  · rw [List.filter_append, filter_tag_nil _ _ htag]
    simp
  · intro n hn hnz
    refine ⟨by simp [ReleaseName, hn, hnz],
      ⟨"LLVM and Clang " ++ args.version ++ " ", ?_⟩⟩
    simp only [ReleaseName, hn]
    rw [if_pos (by simpa using hnz)]
    apply String.ext
    simp [String.data_append, List.append_assoc]
  · rintro (h0 | h0) <;> simp [ReleaseName, h0]

/-- Witness for the amended C4: release-candidate number 2, where the
suffix " RC2" appears, the name decomposes as a stem followed by "RC2",
and the release is marked prerelease. -/
theorem create_prerelease_and_rc_name_witness :
    ∃ res : GitHubState,
      (UploadLlvm Remote.ok ⟨"20.0.0", some 2⟩ "w/d.tar.xz" ⟨[], 0, 0⟩).1 =
        Except.ok res ∧
      (UploadLlvm Remote.ok ⟨"20.0.0", some 2⟩ "w/d.tar.xz" ⟨[], 0, 0⟩).2 =
        [ApiOp.listReleases,
         ApiOp.createRelease (GetBundleVersion ⟨"20.0.0", some 2⟩)
           (ReleaseName ⟨"20.0.0", some 2⟩) (ReleaseBody ⟨"20.0.0", some 2⟩)
           (ReleasePrerelease ⟨"20.0.0", some 2⟩),
         ApiOp.uploadAsset 0 false (pyBasename "w/d.tar.xz")] ∧
      res.releases.filter
        (fun r => r.tag_name == GetBundleVersion ⟨"20.0.0", some 2⟩) =
        [⟨GetBundleVersion ⟨"20.0.0", some 2⟩, ReleaseName ⟨"20.0.0", some 2⟩,
          ReleaseBody ⟨"20.0.0", some 2⟩, ReleasePrerelease ⟨"20.0.0", some 2⟩,
          0, [⟨pyBasename "w/d.tar.xz", 0⟩]⟩] ∧
      ReleasePrerelease ⟨"20.0.0", some 2⟩ =
        (some (2 : Int)).isSome ∧
      (∀ n : Int, some (2 : Int) = some n → n ≠ 0 →
        ReleaseName ⟨"20.0.0", some 2⟩ =
          "LLVM and Clang " ++ "20.0.0" ++ " RC" ++ pyStr n ∧
        ∃ stem : String,
          ReleaseName ⟨"20.0.0", some 2⟩ = stem ++ ("RC" ++ pyStr n)) ∧
      ((some (2 : Int) = some 0 ∨ some (2 : Int) = none) →
        ReleaseName ⟨"20.0.0", some 2⟩ = "LLVM and Clang " ++ "20.0.0") :=
  create_prerelease_and_rc_name ⟨"20.0.0", some 2⟩ "w/d.tar.xz" ⟨[], 0, 0⟩
    (fun r hr => absurd hr (List.not_mem_nil r))
    (fun r hr => absurd hr (List.not_mem_nil r))

end PackageLlvm
